import Mathlib

set_option maxRecDepth 8000

/-!
Verification of the `generate_citypacks.py` batch job.

Python strings are modelled as lists of Unicode code points (`PyStr`),
matching Python's `len` / slicing semantics.  Network effects are modelled
by an injected request function `PyStr → Option PyStr` (`some` = the HTTP
request succeeded and returned a final URL, `none` = it raised).  Character
classes of the regular expressions are modelled over ASCII, which covers
every character class the script uses (`[A-Z]`, `[A-Za-z\s\-]`, `\s`,
case-insensitive ASCII keywords).
-/

/-- Python strings as sequences of code points. -/
abbrev PyStr := List Char

/-- ASCII whitespace, the characters Python's `\s` and `str.strip` treat as
whitespace in the ASCII range. -/
def isPyWs (c : Char) : Bool :=
  c = ' ' || c = '\t' || c = '\n' || c = '\x0d' || c = '\x0b' || c = '\x0c'

/-- `str.strip()`: drop leading and trailing whitespace. -/
def pyStrip (l : PyStr) : PyStr :=
  ((l.dropWhile isPyWs).reverse.dropWhile isPyWs).reverse

/-- Python's truthiness-based `a or b` on strings: `a` if non-empty else `b`. -/
def pyOr (a b : PyStr) : PyStr :=
  if a.isEmpty then b else a

/-- The character class `[A-Z]`. -/
def isUpperAZ (c : Char) : Bool :=
  'A' ≤ c && c ≤ 'Z'

/-- The character class `[A-Za-z\s\-]` of the city-prefix pattern. -/
def classA (c : Char) : Bool :=
  ('A' ≤ c && c ≤ 'Z') || ('a' ≤ c && c ≤ 'z') || isPyWs c || c = '-'

/-- Drop a maximal run of whitespace (the greedy final `\s+` keeps matching
as long as it can). -/
def dropMaxWs : PyStr → PyStr
  | [] => []
  | c :: cs => if isPyWs c then dropMaxWs cs else c :: cs

/-- Match the final `\s+` of the pattern: at least one whitespace character,
then greedily as many as possible; returns the remainder after the match. -/
def wsPlusFinal : PyStr → Option PyStr
  | [] => none
  | c :: cs => if isPyWs c then some (dropMaxWs cs) else none

/-- Match the literal em-dash followed by the final `\s+`. -/
def dashTail : PyStr → Option PyStr
  | [] => none
  | c :: cs => if c = '—' then wsPlusFinal cs else none

/-- Greedy `\s*` followed by `— \s+`, in backtracking order: at each
whitespace character first try to consume it, otherwise stop the star here. -/
def wsStarDash : PyStr → Option PyStr
  | [] => dashTail []
  | c :: cs =>
    if isPyWs c then
      match wsStarDash cs with
      | some r => some r
      | none => dashTail (c :: cs)
    else dashTail (c :: cs)

/-- The tail `\s+ — \s+` of the pattern: one mandatory whitespace character,
then the greedy star. -/
def tailMatch : PyStr → Option PyStr
  | [] => none
  | c :: cs => if isPyWs c then wsStarDash cs else none

/-- Greedy `[A-Za-z\s\-]*` followed by the tail, in backtracking order
(longest run first, giving characters back on failure). -/
def aStarTail : PyStr → Option PyStr
  | [] => tailMatch []
  | c :: cs =>
    if classA c then
      match aStarTail cs with
      | some r => some r
      | none => tailMatch (c :: cs)
    else tailMatch (c :: cs)

/-- `[A-Za-z\s\-]+` followed by the tail: one mandatory class character,
then the greedy star. -/
def aPlusTail : PyStr → Option PyStr
  | [] => none
  | c :: cs => if classA c then aStarTail cs else none

/-- `re.sub(r"^[A-Z][A-Za-z\s\-]+\s+—\s+", "", t)`: if the anchored pattern
matches a prefix of `t` (Perl-style leftmost match with greedy, backtracking
quantifiers), remove that prefix, otherwise return `t` unchanged. -/
def stripCityLead (t : PyStr) : PyStr :=
  match t with
  | [] => t
  | c :: cs =>
    if isUpperAZ c then
      match aPlusTail cs with
      | some r => r
      | none => t
    else t

/-- The four fixed lead-in phrases of `clue_from_title`. -/
def starters : List PyStr :=
  [ "Yesterday, the front page led with: ".toList
  , "Yesterday, everyone was talking about: ".toList
  , "Yesterday, a headline that stood out: ".toList
  , "Yesterday, the biggest buzz was about: ".toList ]

/-- `starters[int(time.time()) % len(starters)]`; `now` is the integer Unix
time at the moment of the call.  The index `now % 4` is always in range, so
the default of `getD` is never used. -/
def starterAt (now : Nat) : PyStr :=
  starters.getD (now % 4) []

/-- `t[:92].rsplit(" ", 1)[0]`: everything before the last space, or the
whole string when it contains no space. -/
def rsplit1head (l : PyStr) : PyStr :=
  match l.reverse.findIdx? (fun c => c = ' ') with
  | none => l
  | some i => (l.reverse.drop (i + 1)).reverse

/-- The title part of the clue: strip, remove a leading "City Name — "
pattern, and shorten titles longer than 95 characters to at most 92
characters broken at the last space, plus an ellipsis. -/
def clue_tail (title : PyStr) : PyStr :=
  let t := stripCityLead (pyStrip title)
  if 95 < t.length then rsplit1head (t.take 92) ++ ['…'] else t

/-- `clue_from_title(title)` at integer Unix time `now`: the lead-in phrase
selected by `now % 4` followed by the processed title. -/
def clue_from_title (now : Nat) (title : PyStr) : PyStr :=
  starterAt now ++ clue_tail title

/-- A 100-character title with no spaces, used to exhibit clue lengths. -/
def longTitle : PyStr := List.replicate 100 'a'

/-- `a` begins with the segment `needle` (the anchored part of a substring
search). -/
def leadMatch : PyStr → PyStr → Bool
  | [], _ => true
  | _ :: _, [] => false
  | a :: as, b :: bs => a = b && leadMatch as bs

/-- Python's `needle in hay` on strings: `needle` occurs contiguously
somewhere in `hay`. -/
def hasSub (needle : PyStr) : PyStr → Bool
  | [] => needle.isEmpty
  | c :: rest => leadMatch needle (c :: rest) || hasSub needle rest

/-- ASCII lowering, the effect of `re.I` on the script's all-ASCII keyword
patterns. -/
def asciiLower (c : Char) : Char :=
  if 'A' ≤ c && c ≤ 'Z' then Char.ofNat (c.toNat + 32) else c

/-- Lowercase a whole string. -/
def lowerList (l : PyStr) : PyStr := l.map asciiLower

/-- `EMOJI_RULES`: the ordered keyword patterns.  Each regex is an
alternation of literal lowercase words, so matching it case-insensitively
is exactly: some word occurs in the lowercased text. -/
def EMOJI_RULES : List (List String × String) :=
  [ (["subway", "metro", "rail", "train", "airport", "flight", "transit"], "🚇")
  , (["storm", "snow", "rain", "flood", "heat", "wildfire", "earthquake", "hurricane"], "🌧️")
  , (["mayor", "council", "parliament", "congress", "government", "policy", "election"], "🏛️")
  , (["court", "judge", "trial", "lawsuit", "legal"], "⚖️")
  , (["music", "festival", "concert", "tour"], "🎶")
  , (["art", "museum", "exhibit", "gallery", "theater", "theatre", "broadway", "film"], "🎭")
  , (["soccer", "football", "nba", "nfl", "mlb", "nhl", "win", "beat", "match", "game"], "🏟️")
  , (["restaurant", "food", "chef", "dining"], "🍽️")
  , (["tech", "ai", "startup", "software", "chip", "cyber"], "💻")
  , (["port", "harbor", "harbour", "ship", "cruise"], "⚓️") ]

/-- `rx.search(title or "")` for one rule: does some keyword of the rule
occur in the lowercased title? -/
def ruleHits (tl : PyStr) (r : List String × String) : Bool :=
  r.1.any (fun w => hasSub w.toList tl)

/-- The `for rx, em in EMOJI_RULES` loop: the emoji of the first rule that
matches, or the default. -/
def pickFrom : List (List String × String) → PyStr → String
  | [], _ => "📰"
  | r :: rest, tl => if ruleHits tl r then r.2 else pickFrom rest tl

/-- `pick_emoji(title)`; `none` models Python `None` (the code searches
`title or ""`). -/
def pick_emoji (title : Option PyStr) : String :=
  pickFrom EMOJI_RULES (lowerList (title.getD []))

/-- `resolve_url(url)`.  The injected `request` function models the
`requests.get(url, allow_redirects=True, timeout=15, headers=...)` call:
`some finalUrl` when it succeeds, `none` when it raises.  The `try/except`
returns the final URL on success and the original `url` on any failure. -/
def resolve_url (request : PyStr → Option PyStr) (url : PyStr) : PyStr :=
  match request url with
  | some final => final
  | none => url

/-- One parsed feed entry; missing attributes are modelled the way the code
reads them (`getattr(e, ..., "")` defaults, `source` possibly absent). -/
structure FeedEntry where
  title : PyStr
  link : PyStr
  sourceTitle : Option PyStr
  publisher : PyStr
  author : PyStr
deriving DecidableEq, Repr

/-- One output story record. -/
structure Story where
  headline : PyStr
  source : PyStr
  url : PyStr
deriving DecidableEq, Repr

/-- One output card record. -/
structure Card where
  emoji : String
  clue : PyStr
deriving DecidableEq, Repr

/-- One per-city output record. -/
structure CityPack where
  city : PyStr
  cards : List Card
  stories : List Story
deriving DecidableEq, Repr

/-- The `src_name` computation: `source.title` when present and non-empty,
else `publisher or author or "Source"`. -/
def srcName (e : FeedEntry) : PyStr :=
  let s0 := e.sourceTitle.getD []
  if s0.isEmpty then pyOr e.publisher (pyOr e.author ("Source".toList)) else s0

/-- The substring the code tests resolved URLs against
(`"news.google" in pub_url`). -/
def gnMark : PyStr := "news.google".toList

/-- The story built from an entry that passes the filters. -/
def storyOf (resolve : PyStr → PyStr) (e : FeedEntry) : Story :=
  ⟨pyStrip e.title, (srcName e).take 40, resolve (pyStrip e.link)⟩

/-- The `for e in entries` collection loop: skip entries with an empty
stripped title or link, skip entries whose resolved URL contains
`"news.google"`, otherwise append the story and break once 4 are held. -/
def buildGo (resolve : PyStr → PyStr) : List FeedEntry → List Story → List Story
  | [], acc => acc
  | e :: rest, acc =>
    if (pyStrip e.title).isEmpty || (pyStrip e.link).isEmpty then
      buildGo resolve rest acc
    else if hasSub gnMark (resolve (pyStrip e.link)) then
      buildGo resolve rest acc
    else
      let acc2 := acc ++ [storyOf resolve e]
      if 4 ≤ acc2.length then acc2 else buildGo resolve rest acc2

/-- The collection loop started with an empty story list. -/
def buildStories (resolve : PyStr → PyStr) (entries : List FeedEntry) : List Story :=
  buildGo resolve entries []

/-- The raw, unresolved story the backfill loop appends. -/
def rawStoryOf (e : FeedEntry) : Story :=
  ⟨pyOr (pyStrip e.title) ("Headline".toList), "Google News".toList, pyStrip e.link⟩

/-- The `while len(stories) < 4 and len(entries) > len(stories)` backfill
loop, with fuel.  Each iteration appends exactly one story, so at most
`4 - len(stories)` iterations run; fuel `4` suffices for every reachable
state. -/
def backfillGo : Nat → List FeedEntry → List Story → List Story
  | 0, _, st => st
  | fuel + 1, entries, st =>
    if h : st.length < 4 ∧ st.length < entries.length then
      backfillGo fuel entries (st ++ [rawStoryOf (entries.get ⟨st.length, h.2⟩)])
    else st

/-- The backfill loop (lines 100–107 of the script). -/
def backfill (entries : List FeedEntry) (st : List Story) : List Story :=
  backfillGo 4 entries st

/-- The per-city body of `main`: truncate the feed to 8 entries, collect up
to 4 resolved stories, backfill, and derive one card per kept story. -/
def cityPack (request : PyStr → Option PyStr) (now : Nat) (city : PyStr)
    (feedEntries : List FeedEntry) : CityPack :=
  let entries := feedEntries.take 8
  let stories := backfill entries (buildStories (resolve_url request) entries)
  { city := city
  , cards := (stories.take 4).map
      (fun s => ⟨pick_emoji (some s.headline), clue_from_title now s.headline⟩)
  , stories := stories.take 4 }

/-- A plain entry with just a title and a link. -/
def plainEntry (t l : String) : FeedEntry :=
  ⟨t.toList, l.toList, none, [], []⟩

/-- A request function for the duplication scenario: the first link redirects
back to the aggregator, every other link resolves to a publisher page. -/
def dupRequest : PyStr → Option PyStr :=
  fun l =>
    if l = "L0".toList then some ("https://news.google.com/rd".toList)
    else some ("https://pub.com/".toList ++ l)

/-- Modelled from the spec: the domain (host component) of a URL, the text
between `"://"` and the next `/`.  The script itself never extracts a
domain; it tests substring containment on the whole resolved URL, so this
definition exists only to compare the spec's "domain matches" wording with
the code's behaviour. -/
def afterScheme : PyStr → PyStr
  | [] => []
  | c :: rest =>
    if leadMatch ("://".toList) (c :: rest) then rest.drop 2 else afterScheme rest

/-- Modelled from the spec: the host part of `u`, cut at the first `/` after
the scheme separator. -/
def urlDomain (u : PyStr) : PyStr :=
  (afterScheme u).takeWhile (fun c => c ≠ '/')

/-- A resolved URL whose domain is a publisher but whose path mentions the
aggregator. -/
def cexUrl : PyStr := "https://example.com/a/news.google/x".toList

/-- An 8-entry feed whose links all resolve (under an identity request) to
marker-free URLs. -/
def feed8 : List FeedEntry :=
  [ plainEntry "A1" "B1", plainEntry "A2" "B2", plainEntry "A3" "B3"
  , plainEntry "A4" "B4", plainEntry "A5" "B5", plainEntry "A6" "B6"
  , plainEntry "A7" "B7", plainEntry "A8" "B8" ]

/- ### Helper lemmas -/

theorem rsplit1head_length_le (l : PyStr) : (rsplit1head l).length ≤ l.length := by
  unfold rsplit1head
  cases h : l.reverse.findIdx? (fun c => c = ' ') with
  | none => exact le_refl _
  | some i =>
    simp only [List.length_reverse, List.length_drop]
    omega

theorem clue_tail_length_le (title : PyStr) : (clue_tail title).length ≤ 95 := by
  unfold clue_tail
  by_cases h : 95 < (stripCityLead (pyStrip title)).length
  · have h1 := rsplit1head_length_le ((stripCityLead (pyStrip title)).take 92)
    have h2 : ((stripCityLead (pyStrip title)).take 92).length ≤ 92 := by
      simp [List.length_take]
    simp only [if_pos h, List.length_append, List.length_cons, List.length_nil]
    omega
  · simp only [if_neg h]
    omega

theorem starterAt_length_le (now : Nat) : (starterAt now).length ≤ 39 := by
  unfold starterAt
  have h : now % 4 = 0 ∨ now % 4 = 1 ∨ now % 4 = 2 ∨ now % 4 = 3 := by omega
  rcases h with h | h | h | h <;> rw [h] <;> decide

theorem pickFrom_at (tl : PyStr) (rules : List (List String × String)) :
    ∀ (i : Nat) (h : i < rules.length),
      ruleHits tl (rules.get ⟨i, h⟩) = true →
      (∀ j, (hj : j < i) → ruleHits tl (rules.get ⟨j, Nat.lt_trans hj h⟩) = false) →
      pickFrom rules tl = (rules.get ⟨i, h⟩).2 := by
  induction rules with
  | nil => intro i h; exact absurd h (by simp)
  | cons r rest ih =>
    intro i h hm hlt
    cases i with
    | zero =>
      simp only [List.get] at hm ⊢
      simp [pickFrom, hm]
    | succ i =>
      have h0 : ruleHits tl r = false := hlt 0 (Nat.succ_pos i)
      have hrec := ih i (Nat.lt_of_succ_lt_succ h) (by simpa using hm)
        (fun j hj => by simpa using hlt (j + 1) (Nat.succ_lt_succ hj))
      simp only [pickFrom, h0, Bool.false_eq_true, if_false, List.get]
      exact hrec

theorem pickFrom_default (tl : PyStr) (rules : List (List String × String))
    (h : ∀ r ∈ rules, ruleHits tl r = false) : pickFrom rules tl = "📰" := by
  induction rules with
  | nil => rfl
  | cons r rest ih =>
    simp only [pickFrom, h r (List.mem_cons_self r rest), Bool.false_eq_true, if_false]
    exact ih (fun x hx => h x (List.mem_cons_of_mem r hx))

theorem pickFrom_mem (tl : PyStr) (rules : List (List String × String)) :
    pickFrom rules tl ∈ rules.map Prod.snd ++ ["📰"] := by
  induction rules with
  | nil => simp [pickFrom]
  | cons r rest ih =>
    cases h : ruleHits tl r with
    | true => simp [pickFrom, h]
    | false =>
      simp only [pickFrom, h, Bool.false_eq_true, if_false, List.map_cons, List.cons_append]
      exact List.mem_cons_of_mem _ ih

/- ### Claim theorems -/

/-- C1 (counterexample): on a 100-character spaceless title the clue is 129
to 132 characters long at every one of the four possible lead-in choices
(the lead-in index is `now % 4`, so these four cases cover every run time),
refuting "at most 96 characters". -/
theorem clue_length_cex :
    96 < (clue_from_title 0 longTitle).length ∧
    96 < (clue_from_title 1 longTitle).length ∧
    96 < (clue_from_title 2 longTitle).length ∧
    96 < (clue_from_title 3 longTitle).length := by decide

/-- C1 (amended): the processed title part of the clue is at most 95
characters, the prepended lead-in phrase at most 39, so `clue_from_title`
returns at most 134 characters. -/
theorem clue_length_le_134 (now : Nat) (title : PyStr) :
    (clue_tail title).length ≤ 95 ∧ (clue_from_title now title).length ≤ 134 := by
  have h1 := starterAt_length_le now
  have h2 := clue_tail_length_le title
  refine ⟨h2, ?_⟩
  simp only [clue_from_title, List.length_append]
  omega

/-- C8: every clue built at integer Unix time `now` starts with the starter
phrase at index `now % 4` of the fixed four-element starter list, so any two
clues generated within the same clock second begin with the same lead-in. -/
theorem clue_starter_is_time_indexed (now : Nat) (t1 t2 : PyStr) :
    (∃ r, clue_from_title now t1 = starters.getD (now % 4) [] ++ r) ∧
    (∃ r, clue_from_title now t2 = starters.getD (now % 4) [] ++ r) :=
  ⟨⟨clue_tail t1, rfl⟩, ⟨clue_tail t2, rfl⟩⟩

/-- C9: the city-prefix stripping removes "Paris — " from
"Paris — City Unveils New Metro Line", and the full clue is the lead-in
phrase followed by exactly "City Unveils New Metro Line". -/
theorem paris_lead_stripped (now : Nat) :
    stripCityLead ("Paris — City Unveils New Metro Line".toList) =
      "City Unveils New Metro Line".toList ∧
    clue_from_title now ("Paris — City Unveils New Metro Line".toList) =
      starters.getD (now % 4) [] ++ "City Unveils New Metro Line".toList := by
  refine ⟨by decide, ?_⟩
  show starterAt now ++ clue_tail ("Paris — City Unveils New Metro Line".toList) = _
  have h : clue_tail ("Paris — City Unveils New Metro Line".toList) =
      "City Unveils New Metro Line".toList := by decide
  rw [h]
  rfl

/-- C7: `resolve_url` is a total function (the `try/except` swallows every
failure): when the request succeeds it returns the final URL, and when the
request fails it returns the original input link unchanged. -/
theorem resolve_url_fail_open (request : PyStr → Option PyStr) (url : PyStr) :
    (∀ final, request url = some final → resolve_url request url = final) ∧
    (request url = none → resolve_url request url = url) := by
  constructor
  · intro final h
    simp [resolve_url, h]
  · intro h
    simp [resolve_url, h]

/-- Witness for C7: a succeeding and a failing request at a concrete URL. -/
theorem resolve_url_fail_open_witness :
    resolve_url (fun _ => some ("https://pub.com/a".toList)) ("u".toList) =
      "https://pub.com/a".toList ∧
    resolve_url (fun _ => none) ("u".toList) = "u".toList :=
  ⟨(resolve_url_fail_open (fun _ => some ("https://pub.com/a".toList)) ("u".toList)).1 _ rfl,
   (resolve_url_fail_open (fun _ => none) ("u".toList)).2 rfl⟩

/-- C4: `pick_emoji` returns the emoji of the first rule in `EMOJI_RULES`
that matches the (case-insensitively searched) headline, the default "📰"
when no rule matches, and in particular "🌧️" for every headline that
contains "earthquake" but matches no transit keyword (the transit rule is
the only rule checked before the weather rule). -/
theorem pick_emoji_first_rule (title : PyStr) :
    (∀ (i : Nat) (h : i < EMOJI_RULES.length),
       ruleHits (lowerList title) (EMOJI_RULES.get ⟨i, h⟩) = true →
       (∀ j, (hj : j < i) →
          ruleHits (lowerList title) (EMOJI_RULES.get ⟨j, Nat.lt_trans hj h⟩) = false) →
       pick_emoji (some title) = (EMOJI_RULES.get ⟨i, h⟩).2) ∧
    ((∀ r ∈ EMOJI_RULES, ruleHits (lowerList title) r = false) →
       pick_emoji (some title) = "📰") ∧
    (hasSub ("earthquake".toList) (lowerList title) = true →
     ruleHits (lowerList title) (EMOJI_RULES.getD 0 ([], "")) = false →
     pick_emoji (some title) = "🌧️") := by
  refine ⟨fun i h hm hlt => pickFrom_at _ _ i h hm hlt,
          fun h => pickFrom_default _ _ h, fun hq h0 => ?_⟩
  have hm : ruleHits (lowerList title) (EMOJI_RULES.get ⟨1, by decide⟩) = true := by
    refine List.any_eq_true.mpr ⟨"earthquake", by decide, hq⟩
  have hlt : ∀ j, (hj : j < 1) →
      ruleHits (lowerList title) (EMOJI_RULES.get ⟨j, Nat.lt_trans hj (by decide)⟩) = false := by
    intro j hj
    interval_cases j
    exact h0
  exact pickFrom_at (lowerList title) EMOJI_RULES 1 (by decide) hm hlt

/-- Witness for C4: a concrete earthquake headline with no transit keyword
classifies as "🌧️". -/
theorem pick_emoji_first_rule_witness :
    pick_emoji (some ("Earthquake shakes the region".toList)) = "🌧️" :=
  (pick_emoji_first_rule ("Earthquake shakes the region".toList)).2.2
    (by decide) (by decide)

/-- C10: `pick_emoji` is total over `None` and arbitrary strings: `None` and
the empty title give the default "📰", and every result is one of the 11
fixed emoji strings (the 10 rule emojis plus the default). -/
theorem pick_emoji_total :
    pick_emoji none = "📰" ∧ pick_emoji (some []) = "📰" ∧
    ∀ t : Option PyStr, pick_emoji t ∈
      ["🚇", "🌧️", "🏛️", "⚖️", "🎶", "🎭", "🏟️", "🍽️", "💻", "⚓️", "📰"] := by
  refine ⟨by decide, by decide, fun t => ?_⟩
  have h := pickFrom_mem (lowerList (t.getD [])) EMOJI_RULES
  have he : EMOJI_RULES.map Prod.snd ++ ["📰"] =
      ["🚇", "🌧️", "🏛️", "⚖️", "🎶", "🎭", "🏟️", "🍽️", "💻", "⚓️", "📰"] := rfl
  rw [he] at h
  exact h

/- ### Loop lemmas -/

theorem buildGo_length_le (resolve : PyStr → PyStr) :
    ∀ (entries : List FeedEntry) (acc : List Story), acc.length < 4 →
      (buildGo resolve entries acc).length ≤ 4 := by
  intro entries
  induction entries with
  | nil =>
    intro acc h
    simpa [buildGo] using Nat.le_of_lt h
  | cons e rest ih =>
    intro acc h
    rw [buildGo]
    by_cases h1 : ((pyStrip e.title).isEmpty || (pyStrip e.link).isEmpty) = true
    · simp only [h1, if_true]
      exact ih acc h
    · simp only [h1, if_false]
      by_cases h2 : hasSub gnMark (resolve (pyStrip e.link)) = true
      · simp only [h2, if_true]
        exact ih acc h
      · simp only [h2, if_false]
        by_cases h3 : 4 ≤ (acc ++ [storyOf resolve e]).length
        · simp only [if_pos h3]
          show (acc ++ [storyOf resolve e]).length ≤ 4
          simp only [List.length_append, List.length_cons, List.length_nil]
          omega
        · simp only [if_neg h3]
          apply ih
          simp only [List.length_append, List.length_cons, List.length_nil] at h3 ⊢
          omega

theorem buildGo_all_pass (resolve : PyStr → PyStr) :
    ∀ (entries : List FeedEntry) (acc : List Story), acc.length < 4 →
      (∀ e ∈ entries, (pyStrip e.title).isEmpty = false ∧
         (pyStrip e.link).isEmpty = false ∧
         hasSub gnMark (resolve (pyStrip e.link)) = false) →
      buildGo resolve entries acc =
        acc ++ (entries.map (storyOf resolve)).take (4 - acc.length) := by
  intro entries
  induction entries with
  | nil =>
    intro acc _ _
    simp [buildGo]
  | cons e rest ih =>
    intro acc hlen hpass
    obtain ⟨ht, hl, hg⟩ := hpass e (List.mem_cons_self e rest)
    rw [buildGo]
    simp only [ht, hl, hg, Bool.or_self, Bool.false_eq_true, if_false]
    by_cases h3 : 4 ≤ (acc ++ [storyOf resolve e]).length
    · simp only [if_pos h3]
      simp only [List.length_append, List.length_cons, List.length_nil] at h3
      have hacc : acc.length = 3 := by omega
      have h41 : 4 - acc.length = 1 := by omega
      simp [h41, List.map_cons, List.take_succ_cons]
    · simp only [if_neg h3]
      simp only [List.length_append, List.length_cons, List.length_nil] at h3
      rw [ih (acc ++ [storyOf resolve e])
        (by simp only [List.length_append, List.length_cons, List.length_nil]; omega)
        (fun x hx => hpass x (List.mem_cons_of_mem e hx))]
      have h4 : 4 - acc.length = (4 - (acc ++ [storyOf resolve e]).length) + 1 := by
        simp only [List.length_append, List.length_cons, List.length_nil]
        omega
      rw [List.map_cons, h4, List.take_succ_cons, List.append_assoc]
      rfl

theorem backfillGo_eq (entries : List FeedEntry) :
    ∀ (fuel : Nat) (st : List Story), st.length ≤ 4 → 4 - st.length ≤ fuel →
      backfillGo fuel entries st =
        st ++ ((entries.take 4).drop st.length).map rawStoryOf := by
  intro fuel
  induction fuel with
  | zero =>
    intro st h1 h2
    have h4 : st.length = 4 := by omega
    have hnil : (entries.take 4).drop st.length = [] := by
      apply List.drop_eq_nil_of_le
      rw [h4]
      simp [List.length_take]
    simp [backfillGo, hnil]
  | succ fuel ih =>
    intro st h1 h2
    rw [backfillGo]
    by_cases hg : st.length < 4 ∧ st.length < entries.length
    · rw [dif_pos hg]
      rw [ih (st ++ [rawStoryOf (entries.get ⟨st.length, hg.2⟩)])
        (by simp only [List.length_append, List.length_cons, List.length_nil]; omega)
        (by simp only [List.length_append, List.length_cons, List.length_nil]; omega)]
      have hlt : st.length < (entries.take 4).length := by
        simp only [List.length_take]
        omega
      rw [List.drop_eq_getElem_cons hlt]
      have hget : (entries.take 4)[st.length] = entries.get ⟨st.length, hg.2⟩ := by
        simp [List.getElem_take]
      rw [List.map_cons, hget, List.append_assoc]
      simp only [List.length_append, List.length_cons, List.length_nil]
      rfl
    · rw [dif_neg hg]
      have hnil : (entries.take 4).drop st.length = [] := by
        apply List.drop_eq_nil_of_le
        simp only [List.length_take]
        omega
      simp [hnil]

theorem backfill_spec (entries : List FeedEntry) (st : List Story)
    (h : st.length ≤ 4) :
    backfill entries st = st ++ ((entries.take 4).drop st.length).map rawStoryOf :=
  backfillGo_eq entries 4 st h (by omega)

theorem buildStories_length_le (resolve : PyStr → PyStr)
    (entries : List FeedEntry) : (buildStories resolve entries).length ≤ 4 :=
  buildGo_length_le resolve entries [] (by decide)

/-- C2 (counterexample): with the first entry skipped (it resolves back to
the aggregator) and two further entries resolved, the backfill appends the
raw form of entry `"T2"`, which is already included as the second story —
so the backfilled slot is not an "additional raw feed entry not already
included" (the only entry left out is `"T0"`, whose title differs). -/
theorem pack_backfill_duplicates_cex :
    (cityPack dupRequest 0 ("c".toList)
      [plainEntry "T0" "L0", plainEntry "T1" "L1", plainEntry "T2" "L2"]).stories =
    [ ⟨"T1".toList, "Source".toList, "https://pub.com/L1".toList⟩
    , ⟨"T2".toList, "Source".toList, "https://pub.com/L2".toList⟩
    , ⟨"T2".toList, "Google News".toList, "L2".toList⟩ ] ∧
    (plainEntry "T0" "L0").title ≠ (plainEntry "T2" "L2").title := by decide

/-- C2 (amended): the pack's story list is the resolved stories followed by
the raw form (`rawStoryOf`: title, source "Google News", the entry's own
unresolved link) of the feed entries at indices from the resolved count up
to index 3 — indexing that can repeat entries already included whenever an
earlier entry was skipped; when the feed has no entries at those indices,
nothing is appended and the pack keeps fewer than 4 stories. -/
theorem pack_backfill_by_index (request : PyStr → Option PyStr) (now : Nat)
    (city : PyStr) (entries : List FeedEntry) :
    (cityPack request now city entries).stories =
      buildStories (resolve_url request) (entries.take 8) ++
      ((entries.take 4).drop
        (buildStories (resolve_url request) (entries.take 8)).length).map
        rawStoryOf := by
  have hb := buildStories_length_le (resolve_url request) (entries.take 8)
  show (backfill (entries.take 8)
      (buildStories (resolve_url request) (entries.take 8))).take 4 = _
  rw [backfill_spec _ _ hb]
  have h48 : (entries.take 8).take 4 = entries.take 4 := by
    rw [List.take_take]
    norm_num
  rw [h48]
  apply List.take_of_length_le
  simp only [List.length_append, List.length_map, List.length_drop,
    List.length_take]
  omega

/-- C3 (counterexample): a resolved URL whose domain is `example.com` (which
neither equals nor even contains the aggregator's domain) but whose path
mentions `news.google` makes the entry skipped anyway: the collection loop
tests substring containment on the whole URL, not the domain. -/
theorem skip_despite_foreign_domain_cex :
    urlDomain cexUrl = "example.com".toList ∧
    hasSub gnMark (urlDomain cexUrl) = false ∧
    buildStories (fun _ => cexUrl) [plainEntry "Big story" "http://x"] = [] := by
  decide

/-- C3 (amended): for an entry with non-empty stripped title and link, the
collection loop skips it (leaving the accumulated stories untouched) exactly
when the resolved URL contains the substring "news.google" anywhere;
otherwise it appends the resolved story and stops once 4 are held. -/
theorem skip_iff_marker_in_url (resolve : PyStr → PyStr) (e : FeedEntry)
    (rest : List FeedEntry) (acc : List Story)
    (ht : (pyStrip e.title).isEmpty = false)
    (hl : (pyStrip e.link).isEmpty = false) :
    (hasSub gnMark (resolve (pyStrip e.link)) = true →
       buildGo resolve (e :: rest) acc = buildGo resolve rest acc) ∧
    (hasSub gnMark (resolve (pyStrip e.link)) = false →
       buildGo resolve (e :: rest) acc =
         if 4 ≤ acc.length + 1 then acc ++ [storyOf resolve e]
         else buildGo resolve rest (acc ++ [storyOf resolve e])) := by
  constructor
  · intro h
    rw [buildGo]
    simp [ht, hl, h]
  · intro h
    rw [buildGo]
    simp only [ht, hl, h, Bool.or_self, Bool.false_eq_true, if_false,
      List.length_append, List.length_cons, List.length_nil]

/-- Witness for C3: the skip branch taken at a concrete entry whose resolved
URL carries the marker in its path. -/
theorem skip_iff_marker_in_url_witness :
    buildGo (fun _ => cexUrl) [plainEntry "Big story" "http://x"] [] =
      buildGo (fun _ => cexUrl) [] [] :=
  (skip_iff_marker_in_url (fun _ => cexUrl) (plainEntry "Big story" "http://x")
    [] [] (by decide) (by decide)).1 (by decide)

/-- C5: in every generated pack the cards and stories lists have equal
length, that length is at most 4, and the card at each index is derived
from the story at the same index: its emoji is `pick_emoji` of the story's
headline and its clue is `clue_from_title` of that headline. -/
theorem pack_cards_mirror_stories (request : PyStr → Option PyStr) (now : Nat)
    (city : PyStr) (entries : List FeedEntry) :
    ((cityPack request now city entries).cards.length =
       (cityPack request now city entries).stories.length) ∧
    ((cityPack request now city entries).stories.length ≤ 4) ∧
    (∀ i : Nat, (cityPack request now city entries).cards[i]? =
       ((cityPack request now city entries).stories[i]?).map
         (fun s => ⟨pick_emoji (some s.headline), clue_from_title now s.headline⟩)) := by
  refine ⟨?_, ?_, ?_⟩
  · simp [cityPack]
  · simp only [cityPack, List.length_take]
    omega
  · intro i
    simp only [cityPack, List.getElem?_map]

/-- C6: the pipeline looks at no entry beyond the first 8 (truncating the
feed to 8 entries leaves the pack unchanged), and when the feed has exactly
8 entries, all with non-empty titles and links and all resolving to URLs
free of the aggregator marker, the pack holds exactly the first 4 entries,
resolved, in feed order. -/
theorem pack_first_eight_then_four (request : PyStr → Option PyStr) (now : Nat)
    (city : PyStr) :
    (∀ entries, cityPack request now city entries =
       cityPack request now city (entries.take 8)) ∧
    (∀ entries : List FeedEntry, entries.length = 8 →
       (∀ e ∈ entries, (pyStrip e.title).isEmpty = false ∧
          (pyStrip e.link).isEmpty = false ∧
          hasSub gnMark (resolve_url request (pyStrip e.link)) = false) →
       (cityPack request now city entries).stories =
         (entries.take 4).map (storyOf (resolve_url request))) := by
  constructor
  · intro entries
    simp [cityPack, List.take_take]
  · intro entries hlen hpass
    have htake : entries.take 8 = entries := List.take_of_length_le (by omega)
    have hbs : buildStories (resolve_url request) entries =
        (entries.map (storyOf (resolve_url request))).take 4 := by
      have h := buildGo_all_pass (resolve_url request) entries [] (by decide) hpass
      simpa [buildStories] using h
    show (backfill (entries.take 8)
        (buildStories (resolve_url request) (entries.take 8))).take 4 = _
    rw [htake, hbs]
    have hlen4 : ((entries.map (storyOf (resolve_url request))).take 4).length = 4 := by
      simp [List.length_take, hlen]
    rw [backfill_spec _ _ (le_of_eq hlen4), hlen4]
    have hnil : (entries.take 4).drop 4 = [] := by
      apply List.drop_eq_nil_of_le
      simp [List.length_take]
    rw [hnil, List.map_nil, List.append_nil,
      List.take_of_length_le (le_of_eq hlen4), ← List.map_take]

/-- Witness for C6: the concrete 8-entry feed under an identity request
yields exactly the first 4 entries, resolved. -/
theorem pack_first_eight_then_four_witness :
    (cityPack (fun l => some l) 0 ("c".toList) feed8).stories =
      (feed8.take 4).map (storyOf (resolve_url (fun l => some l))) :=
  (pack_first_eight_then_four (fun l => some l) 0 ("c".toList)).2 feed8
    (by decide) (by decide)
